import Mathlib

/-!
Verification of the rising-pmax-optimizer analysis engine.

This file gives a shallow embedding of the pure decision logic of the
repository and proves properties about it:

  * config/thresholds.py : the seasonal threshold table and season lookup.
  * src/analyzer.py : kill criteria, failure diagnosis, the budget
    recommendation engine and the emergency condition checker.
  * src/campaign_auditor.py : severity deductions, health score and grade.

Modelling conventions: Python floats are modelled as rationals, Python ints
as Int, dictionary keys that may be absent as Option fields read through
getD with the same default the code passes to dict.get. Formatted reason
and message strings are abstracted to structures or constructors that carry
exactly the data interpolated into the string. Python round(x, 2) is
modelled with the mathematical round at two decimals; the code paths proved
here never hit an exact half-cent tie, where Python would round to even.
-/

set_option maxRecDepth 10000

/-! ## config/thresholds.py -/

/-- One season entry of the THRESHOLDS table. The fields are exactly the
keys present in the source dictionary; in particular there are no
min_ctr keys for the three image field types. -/
structure SeasonConfig where
  months : List Int
  min_impressions : Int
  min_ctr_headline : ℚ
  min_ctr_long_headline : ℚ
  min_ctr_description : ℚ
  lookback_days : Int
  new_asset_patience_days : Int
  new_asset_patience_impressions : Int
deriving DecidableEq

/-- Dictionary indexing of a season entry by a min_ctr key, as in
self.thresholds[ctr_key]. A key that is not present in the source
dictionary yields none, which models the KeyError the code raises. -/
def SeasonConfig.getCtr (c : SeasonConfig) (key : String) : Option ℚ :=
  if key = "min_ctr_headline" then some c.min_ctr_headline
  else if key = "min_ctr_long_headline" then some c.min_ctr_long_headline
  else if key = "min_ctr_description" then some c.min_ctr_description
  else none

def deep_winter_config : SeasonConfig :=
  { months := [1, 2], min_impressions := 150, min_ctr_headline := 2,
    min_ctr_long_headline := 1, min_ctr_description := 3, lookback_days := 60,
    new_asset_patience_days := 60, new_asset_patience_impressions := 500 }

def low_season_config : SeasonConfig :=
  { months := [11, 12], min_impressions := 150, min_ctr_headline := 2,
    min_ctr_long_headline := 1, min_ctr_description := 3, lookback_days := 60,
    new_asset_patience_days := 60, new_asset_patience_impressions := 500 }

def shoulder_season_config : SeasonConfig :=
  { months := [3, 4, 9, 10], min_impressions := 300, min_ctr_headline := 3,
    min_ctr_long_headline := 2, min_ctr_description := 4, lookback_days := 30,
    new_asset_patience_days := 60, new_asset_patience_impressions := 500 }

def peak_season_config : SeasonConfig :=
  { months := [5, 6, 7, 8], min_impressions := 500, min_ctr_headline := 4,
    min_ctr_long_headline := 5/2, min_ctr_description := 5, lookback_days := 30,
    new_asset_patience_days := 60, new_asset_patience_impressions := 500 }

/-- The THRESHOLDS dictionary, in insertion order. -/
def THRESHOLDS : List (String × SeasonConfig) :=
  [("deep_winter", deep_winter_config),
   ("low_season", low_season_config),
   ("shoulder_season", shoulder_season_config),
   ("peak_season", peak_season_config)]

/-- get_season_name: first season whose months list contains the month;
none models the ValueError raised when no season matches. -/
def get_season_name (month : Int) : Option String :=
  (THRESHOLDS.find? (fun sc => sc.2.months.contains month)).map (fun sc => sc.1)

/-- get_thresholds: look up the season name, then index THRESHOLDS by it. -/
def get_thresholds (month : Int) : Option SeasonConfig :=
  (get_season_name month).bind (fun season =>
    (THRESHOLDS.find? (fun sc => sc.1 == season)).map (fun sc => sc.2))

/-! ## src/analyzer.py : AssetAnalyzer.should_kill -/

/-- The fields of an asset dict read by should_kill and diagnose_failure.
asset_type is Option to model a dict with the key absent. -/
structure Asset where
  asset_type : Option String
  impressions : Int
  ctr : ℚ
  asset_text : String
deriving DecidableEq

/-- The ctr_key dictionary lookup inside should_kill. -/
def ctr_key_for (asset_type : String) : Option String :=
  if asset_type = "HEADLINE" then some "min_ctr_headline"
  else if asset_type = "LONG_HEADLINE" then some "min_ctr_long_headline"
  else if asset_type = "DESCRIPTION" then some "min_ctr_description"
  else if asset_type = "MARKETING_IMAGE" then some "min_ctr_marketing_image"
  else if asset_type = "SQUARE_MARKETING_IMAGE" then some "min_ctr_square_marketing_image"
  else if asset_type = "PORTRAIT_MARKETING_IMAGE" then some "min_ctr_portrait_marketing_image"
  else none

/-- The data interpolated into the kill reason string. -/
structure KillReason where
  ctr : ℚ
  season : String
  min_ctr : ℚ
  asset_type : String
  impressions : Int
deriving DecidableEq

/-- AssetAnalyzer.should_kill. Except.error key models the KeyError raised
by self.thresholds[ctr_key] when the key is absent from the season entry. -/
def should_kill (season : String) (thresholds : SeasonConfig) (asset : Asset) :
    Except String (Option KillReason) :=
  let asset_type := asset.asset_type.getD "HEADLINE"
  let impressions := asset.impressions
  let ctr := asset.ctr
  let min_impressions := thresholds.min_impressions
  if impressions < min_impressions then Except.ok none
  else
    match ctr_key_for asset_type with
    | none => Except.ok none
    | some ctr_key =>
      match thresholds.getCtr ctr_key with
      | none => Except.error ctr_key
      | some min_ctr =>
        if ctr < min_ctr then
          Except.ok (some { ctr := ctr, season := season, min_ctr := min_ctr,
                            asset_type := asset_type, impressions := impressions })
        else Except.ok none

deriving instance DecidableEq for Except

/-- The three image field types, whose min_ctr keys are absent from every
season entry of THRESHOLDS. -/
def image_field_types : List String :=
  ["MARKETING_IMAGE", "SQUARE_MARKETING_IMAGE", "PORTRAIT_MARKETING_IMAGE"]

/-! ## src/analyzer.py : AssetAnalyzer.diagnose_failure -/

/-- KNOWN_FAILURE_PATTERNS from the top of analyzer.py. -/
def KNOWN_FAILURE_PATTERNS : List String :=
  ["innovative", "premier", "top-of-the-line", "unmatched",
   "experience", "destination", "serious anglers", "monsters"]

/-- The gatekeeping word list local to diagnose_failure. -/
def gatekeeping_words : List String :=
  ["serious", "elite", "professional", "expert", "advanced"]

/-- Python substring membership: needle in haystack. -/
def py_in (needle haystack : String) : Bool :=
  decide (needle.toList <:+: haystack.toList)

/-- Python str.lower, character by character. -/
def py_lower (s : String) : String :=
  String.mk (s.toList.map Char.toLower)

/-- Python str.split with no argument: split on whitespace runs,
dropping empty pieces. -/
def py_split (s : String) : List String :=
  ((s.toList.splitOnP (fun c => c.isWhitespace)).map String.mk).filter (fun w => w != "")

/-- Python set(text.split()) as a duplicate-free list of words. -/
def word_set (s : String) : List String :=
  (py_split s).dedup

/-- The similarity ratio computed in diagnose_failure:
  len(asset_words AND grave_words) / len(asset_words). -/
def overlap_ratio (text grave_text : String) : ℚ :=
  (((word_set text).inter (word_set grave_text)).length : ℚ) /
    ((word_set text).length : ℚ)

/-- One graveyard record as read by diagnose_failure: only asset_text is
used, through grave.get with default empty string. -/
structure GraveEntry where
  asset_text : String
deriving DecidableEq

/-- The loop body test in the graveyard scan of diagnose_failure: both word
sets nonempty and overlap strictly above 0.5. -/
def grave_similar (text : String) (grave : GraveEntry) : Bool :=
  let grave_text := py_lower grave.asset_text
  let asset_words := word_set text
  let grave_words := word_set grave_text
  asset_words != [] && grave_words != [] &&
    decide (overlap_ratio text grave_text > 1/2)

/-- The return values of diagnose_failure, abstracted to the message family
and the datum interpolated into the message. -/
inductive Diagnosis where
  | visual_fatigue : Diagnosis
  | voice_hype : String → Diagnosis
  | specificity_too_short : Diagnosis
  | voice_gatekeeping : String → Diagnosis
  | angle_similar : String → Diagnosis
  | angle_low_engagement : Diagnosis
deriving DecidableEq

/-- AssetAnalyzer.diagnose_failure: the priority chain, first match wins. -/
def diagnose_failure (asset : Asset) (graveyard : List GraveEntry) : Diagnosis :=
  let asset_type := asset.asset_type.getD ""
  if asset_type = "MARKETING_IMAGE" ∨ asset_type = "SQUARE_MARKETING_IMAGE" ∨
      asset_type = "PORTRAIT_MARKETING_IMAGE" then
    Diagnosis.visual_fatigue
  else
    let text := py_lower asset.asset_text
    match KNOWN_FAILURE_PATTERNS.find? (fun pattern => py_in (py_lower pattern) text) with
    | some pattern => Diagnosis.voice_hype pattern
    | none =>
      let word_count := (py_split text).length
      if word_count ≤ 2 ∧ asset_type = "LONG_HEADLINE" then
        Diagnosis.specificity_too_short
      else
        match gatekeeping_words.find? (fun word => py_in word text) with
        | some word => Diagnosis.voice_gatekeeping word
        | none =>
          match graveyard.find? (grave_similar text) with
          | some grave => Diagnosis.angle_similar grave.asset_text
          | none => Diagnosis.angle_low_engagement

/-! ## src/analyzer.py : calculate_budget_recommendation -/

/-- The result of calculate_budget_recommendation; the reason string is
abstracted away, the other three dict entries are kept. -/
structure BudgetRec where
  action : String
  recommended_budget : ℚ
  market_ceiling_detected : Bool
deriving DecidableEq

/-- Python round(x, 2). -/
def round2 (x : ℚ) : ℚ := ((round (x * 100) : ℤ) : ℚ) / 100

/-- calculate_budget_recommendation: the exact branch order of the source.
0.20 is written 20/100, 0.10 as 10/100, 0.30 as 30/100. -/
def calculate_budget_recommendation (current_daily_budget actual_daily_spend_avg
    current_roas target_roas : ℚ) (season : String) : BudgetRec :=
  if current_daily_budget ≤ 0 then
    { action := "hold", recommended_budget := 10, market_ceiling_detected := false }
  else
    let utilization := actual_daily_spend_avg / current_daily_budget * 100
    if utilization < 80 ∧ current_daily_budget > 100 then
      { action := "hold", recommended_budget := current_daily_budget,
        market_ceiling_detected := true }
    else
      let target_roas2 := if target_roas ≤ 0 then 200 else target_roas
      let roas_performance := current_roas / target_roas2 - 1
      if roas_performance ≥ 10/100 then
        { action := "increase",
          recommended_budget :=
            round2 (current_daily_budget + current_daily_budget * (20/100)),
          market_ceiling_detected := false }
      else if roas_performance ≥ -(10/100) then
        { action := "hold", recommended_budget := current_daily_budget,
          market_ceiling_detected := false }
      else if roas_performance ≥ -(30/100) then
        { action := "decrease",
          recommended_budget :=
            max (round2 (current_daily_budget - current_daily_budget * (20/100))) 10,
          market_ceiling_detected := false }
      else
        { action := "pause", recommended_budget := 10,
          market_ceiling_detected := false }

/-! ## src/analyzer.py : check_emergency_conditions -/

/-- The budget_data dict fields read by check_emergency_conditions; every
field is Option so an absent key can be modelled, and each read goes
through getD with the default the code passes to dict.get. -/
structure BudgetData where
  actual_daily_spend_avg : Option ℚ
  avg_ctr : Option ℚ
  daily_budget_target : Option ℚ
  roas_percent : Option ℚ
  target_roas_percent : Option ℚ
  budget_utilization_percent : Option ℚ
deriving DecidableEq

/-- The three alert families, abstracted to the data interpolated into the
message of each alert dict. -/
inductive Alert where
  | ctr_collapse : ℚ → ℚ → Alert
  | budget_runaway : ℚ → ℚ → ℚ → ℚ → Alert
  | market_ceiling : ℚ → ℚ → ℚ → Alert
deriving DecidableEq

/-- Python truthiness of h.get with no default: an absent key and a zero
value are falsy, any other number is truthy. -/
def truthy_ctr : Option ℚ → Bool
  | none => false
  | some v => v != 0

/-- Alert 1 of check_emergency_conditions: CTR collapse. History entries
are modelled by their avg_ctr value (Option for an absent key). -/
def ctr_collapse_alerts (budget_data : BudgetData) (history : List (Option ℚ)) :
    List Alert :=
  if 2 ≤ history.length then
    let current_ctr := budget_data.avg_ctr.getD 0
    let recent_ctrs := ((history.take 4).filter truthy_ctr).map (fun o => o.getD 0)
    if recent_ctrs ≠ [] then
      let avg_recent_ctr := recent_ctrs.sum / (recent_ctrs.length : ℚ)
      if avg_recent_ctr > 0 ∧ current_ctr < avg_recent_ctr * (1/2) then
        [Alert.ctr_collapse avg_recent_ctr current_ctr]
      else []
    else []
  else []

/-- Alert 3 of check_emergency_conditions: budget runaway. -/
def budget_runaway_alerts (budget_data : BudgetData) : List Alert :=
  let daily_spend := budget_data.actual_daily_spend_avg.getD 0
  let target_budget := budget_data.daily_budget_target.getD 0
  let roas := budget_data.roas_percent.getD 0
  let target_roas := budget_data.target_roas_percent.getD 200
  if target_budget > 0 ∧ daily_spend > target_budget * 2 ∧ roas < target_roas then
    [Alert.budget_runaway daily_spend target_budget roas target_roas]
  else []

/-- Alert 4 of check_emergency_conditions: market ceiling. -/
def market_ceiling_alerts (budget_data : BudgetData) : List Alert :=
  let daily_spend := budget_data.actual_daily_spend_avg.getD 0
  let target_budget := budget_data.daily_budget_target.getD 0
  let utilization := budget_data.budget_utilization_percent.getD 100
  if utilization < 80 ∧ target_budget > 100 then
    [Alert.market_ceiling daily_spend target_budget utilization]
  else []

/-- check_emergency_conditions: the three alert blocks appended in source
order; asset_data is accepted and unused, as in the source. -/
def check_emergency_conditions (budget_data : BudgetData) (asset_data : List Asset)
    (history : List (Option ℚ)) : List Alert :=
  ctr_collapse_alerts budget_data history ++ budget_runaway_alerts budget_data ++
    market_ceiling_alerts budget_data

/-! ## src/campaign_auditor.py : score and grade -/

/-- SEVERITY_DEDUCTIONS.get(severity, 0): the dictionary at the top of
campaign_auditor.py, accessed with default 0. -/
def severity_deduction (severity : String) : Int :=
  if severity = "CRITICAL" then 15
  else if severity = "WARNING" then 5
  else if severity = "INFO" then 0
  else if severity = "PASS" then 0
  else 0

/-- GRADE_SCALE, in source order. -/
def GRADE_SCALE : List (Int × String) :=
  [(90, "A"), (75, "B"), (60, "C"), (40, "D"), (0, "F")]

/-- The grade loop of _calculate_score: first threshold at or below the
score wins, default F. -/
def calc_grade (score : Int) : String :=
  ((GRADE_SCALE.find? (fun tl => score ≥ tl.1)).map (fun tl => tl.2)).getD "F"

/-- CampaignAuditor._calculate_score: findings are represented by their
severity strings, the only field the function reads. -/
def calculate_score (findings : List String) : Int × String :=
  let score := findings.foldl (fun s f => s - severity_deduction f) 100
  let score2 := max 0 score
  (score2, calc_grade score2)

/-- Check 15 of _check_asset_health: severity of the text_asset_minimums
finding as a function of the active asset counts. -/
def text_asset_minimums_severity (headlines descriptions long_headlines : Nat) :
    String :=
  if headlines < 3 ∨ descriptions < 2 ∨ long_headlines < 1 then "CRITICAL"
  else "PASS"

/-! ## Definitions modelled from the spec, for comparison only -/

/-- Modelled from the spec (claim C5 wording): the average avg_ctr over the
most recent 4 history entries, zero and absent entries included. -/
def spec_recent_avg (history : List (Option ℚ)) : ℚ :=
  ((history.take 4).map (fun o => o.getD 0)).sum / (((history.take 4).length : ℚ))

/-- Modelled from the spec (claim C5 wording): the CTR collapse alert fires
iff the history has at least 2 entries, the average over the most recent 4
entries is positive, and the current avg_ctr is below half that average. -/
def ctr_collapse_condition_spec (budget_data : BudgetData)
    (history : List (Option ℚ)) : Prop :=
  2 ≤ history.length ∧ 0 < spec_recent_avg history ∧
    budget_data.avg_ctr.getD 0 < spec_recent_avg history * (1/2)

/-- Modelled from the spec (claim C6 wording): the grade as the first
matching descending threshold. -/
def grade_of_score_spec (score : Int) : String :=
  if score ≥ 90 then "A"
  else if score ≥ 75 then "B"
  else if score ≥ 60 then "C"
  else if score ≥ 40 then "D"
  else "F"


/-! ## Concrete inputs used by the theorems below -/

/-- An image asset with ample impressions, used for claim C1. -/
def dw_image_asset : Asset :=
  { asset_type := some "MARKETING_IMAGE", impressions := 500, ctr := 5,
    asset_text := "lifestyle-river-shot-03" }

/-- An asset with no asset_type key, used for claim C10. -/
def untyped_asset : Asset :=
  { asset_type := none, impressions := 200, ctr := 1, asset_text := "great rods" }

/-- The asset and graveyard entry of the C4 counterexample. -/
def half_overlap_asset : Asset :=
  { asset_type := some "HEADLINE", impressions := 500, ctr := 1,
    asset_text := "blue boat" }

/-- The graveyard entry of the C4 counterexample. -/
def half_overlap_grave : GraveEntry := { asset_text := "blue car" }

/-- The asset of the C4 witness. -/
def alaska_asset : Asset :=
  { asset_type := some "HEADLINE", impressions := 500, ctr := 1,
    asset_text := "Fly Rods For Alaska" }

/-- The graveyard entry of the C4 witness. -/
def alaska_grave : GraveEntry := { asset_text := "fly rods for alaska trips" }

/-- The budget data of the C5 counterexample. -/
def collapse_bd : BudgetData :=
  { actual_daily_spend_avg := none, avg_ctr := some (3/2), daily_budget_target := none,
    roas_percent := none, target_roas_percent := none,
    budget_utilization_percent := none }

/-- The budget data of the C5 witness. -/
def collapse_bd_w : BudgetData :=
  { actual_daily_spend_avg := none, avg_ctr := some 2, daily_budget_target := none,
    roas_percent := none, target_roas_percent := none,
    budget_utilization_percent := none }

/-- The budget data of the C9 witness: no daily_budget_target key, heavy
spend, low ROAS. -/
def runaway_bd : BudgetData :=
  { actual_daily_spend_avg := some 500, avg_ctr := none, daily_budget_target := none,
    roas_percent := some 50, target_roas_percent := some 200,
    budget_utilization_percent := none }

/-! ## Helper lemmas -/

lemma round2_eq (x : ℚ) (n : ℤ) (h1 : (n : ℚ) ≤ x * 100 + 1/2) (h2 : x * 100 + 1/2 < n + 1) :
    round2 x = (n : ℚ) / 100 := by
  unfold round2
  rw [round_eq]
  congr 1
  exact_mod_cast Int.floor_eq_iff.mpr ⟨h1, h2⟩

lemma round2_le (x : ℚ) : round2 x ≤ x + 1/200 := by
  have h := abs_sub_round (x * 100)
  rw [abs_le] at h
  have h1 := h.1
  unfold round2
  linarith

lemma le_round2 (x : ℚ) : x - 1/200 ≤ round2 x := by
  have h := abs_sub_round (x * 100)
  rw [abs_le] at h
  have h2 := h.2
  unfold round2
  linarith

lemma round2_nonneg (x : ℚ) (hx : 0 ≤ x) : 0 ≤ round2 x := by
  unfold round2
  have h : (0:ℤ) ≤ round (x * 100) := by
    rw [round_eq]
    refine Int.le_floor.mpr ?_
    push_cast
    linarith
  have h2 : (0:ℚ) ≤ ((round (x * 100) : ℤ) : ℚ) := by exact_mod_cast h
  linarith

/-- C7: every month 1 to 12 is covered by exactly one season, every month
listed in a season lies in 1 to 12, and a month covered by no season makes
get_season_name fail with none rather than return a default. -/
theorem c7_season_partition :
    (∀ m ∈ ([1, 2, 3, 4, 5, 6, 7, 8, 9, 10, 11, 12] : List Int),
       THRESHOLDS.countP (fun sc => sc.2.months.contains m) = 1 ∧
       (get_season_name m).isSome) ∧
    (∀ p ∈ THRESHOLDS, ∀ q ∈ THRESHOLDS, p.1 ≠ q.1 →
       ∀ m ∈ p.2.months, m ∉ q.2.months) ∧
    (∀ p ∈ THRESHOLDS, ∀ m ∈ p.2.months,
       m ∈ ([1, 2, 3, 4, 5, 6, 7, 8, 9, 10, 11, 12] : List Int)) ∧
    (∀ m : Int, (∀ p ∈ THRESHOLDS, p.2.months.contains m = false) →
       get_season_name m = none) := by
  refine ⟨by decide, by decide, by decide, ?_⟩
  intro m h
  unfold get_season_name
  rw [List.find?_eq_none.mpr]
  · rfl
  · intro x hx
    simp only [h x hx]
    decide

/-- Witness for C7: month 13 is covered by no season and the lookup fails. -/
theorem c7_season_partition_witness : get_season_name 13 = none :=
  c7_season_partition.2.2.2 13 (by decide)

/-- C2: the market-ceiling branch fires before any ROAS evaluation on the
scenario budget 300, spend 200, roas 250, target 200, for every season. -/
theorem c2_ceiling_before_roas (season : String) :
    calculate_budget_recommendation 300 200 250 200 season =
      { action := "hold", recommended_budget := 300, market_ceiling_detected := true } := by
  norm_num [calculate_budget_recommendation]

/-- Witness for C2 at a concrete season string. -/
theorem c2_ceiling_before_roas_witness :
    calculate_budget_recommendation 300 200 250 200 "peak_season" =
      { action := "hold", recommended_budget := 300, market_ceiling_detected := true } :=
  c2_ceiling_before_roas "peak_season"

/-- C1 counterexample: in the active season of month 1, an image asset with
impressions at and above the floor makes should_kill raise KeyError
(Except.error) instead of returning no-kill, refuting the claim that it
returns None and does not raise. -/
theorem c1_counterexample :
    get_season_name 1 = some "deep_winter" ∧
    get_thresholds 1 = some deep_winter_config ∧
    deep_winter_config.min_impressions ≤ dw_image_asset.impressions ∧
    deep_winter_config.getCtr "min_ctr_marketing_image" = none ∧
    should_kill "deep_winter" deep_winter_config dw_image_asset =
      Except.error "min_ctr_marketing_image" := by decide

/-- C1 (amended): with enough impressions, an asset whose type has no entry
in the ctr_key table is never killed and does not raise, while an asset of
one of the three image field types, whose min_ctr key is absent from the
season entry, makes should_kill propagate the KeyError as a fatal error. -/
theorem c1_no_floor_behaviour (month : Int) (season : String) (th : SeasonConfig)
    (asset : Asset)
    (hs : get_season_name month = some season)
    (ht : get_thresholds month = some th)
    (himp : ¬ (asset.impressions < th.min_impressions)) :
    (ctr_key_for (asset.asset_type.getD "HEADLINE") = none →
       should_kill season th asset = Except.ok none) ∧
    (asset.asset_type.getD "HEADLINE" ∈ image_field_types →
       ∃ key, ctr_key_for (asset.asset_type.getD "HEADLINE") = some key ∧
         th.getCtr key = none ∧
         should_kill season th asset = Except.error key) := by
  constructor
  · intro hk
    unfold should_kill
    dsimp only
    rw [if_neg himp, hk]
  · intro hmem
    simp only [image_field_types, List.mem_cons, List.mem_singleton,
      List.not_mem_nil, or_false] at hmem
    rcases hmem with h | h | h
    · refine ⟨"min_ctr_marketing_image", ?_, rfl, ?_⟩
      · rw [h]
        decide
      · unfold should_kill
        dsimp only
        rw [if_neg himp, h]
        rfl
    · refine ⟨"min_ctr_square_marketing_image", ?_, rfl, ?_⟩
      · rw [h]
        decide
      · unfold should_kill
        dsimp only
        rw [if_neg himp, h]
        rfl
    · refine ⟨"min_ctr_portrait_marketing_image", ?_, rfl, ?_⟩
      · rw [h]
        decide
      · unfold should_kill
        dsimp only
        rw [if_neg himp, h]
        rfl

/-- Witness for C1 at month 1 and a concrete image asset. -/
theorem c1_no_floor_behaviour_witness :
    ∃ key, ctr_key_for (dw_image_asset.asset_type.getD "HEADLINE") = some key ∧
      deep_winter_config.getCtr key = none ∧
      should_kill "deep_winter" deep_winter_config dw_image_asset = Except.error key :=
  (c1_no_floor_behaviour 1 "deep_winter" deep_winter_config dw_image_asset
    (by decide) (by decide) (by decide)).2 (by decide)

/-- C10: an asset dict without an asset_type key is evaluated as a HEADLINE
against the active season headline floor, and the kill reason names
HEADLINE. -/
theorem c10_default_headline (month : Int) (season : String) (th : SeasonConfig)
    (asset : Asset)
    (hs : get_season_name month = some season)
    (ht : get_thresholds month = some th)
    (htype : asset.asset_type = none)
    (himp : ¬ (asset.impressions < th.min_impressions))
    (hctr : asset.ctr < th.min_ctr_headline) :
    should_kill season th asset =
      Except.ok (some { ctr := asset.ctr, season := season,
                        min_ctr := th.min_ctr_headline, asset_type := "HEADLINE",
                        impressions := asset.impressions }) := by
  unfold should_kill
  dsimp only
  rw [htype]
  simp [ctr_key_for, SeasonConfig.getCtr, himp, hctr]

/-- Witness for C10 at month 1 and a concrete asset with no asset_type. -/
theorem c10_default_headline_witness :
    should_kill "deep_winter" deep_winter_config untyped_asset =
      Except.ok (some { ctr := untyped_asset.ctr, season := "deep_winter",
                        min_ctr := deep_winter_config.min_ctr_headline,
                        asset_type := "HEADLINE",
                        impressions := untyped_asset.impressions }) :=
  c10_default_headline 1 "deep_winter" deep_winter_config untyped_asset
    (by decide) (by decide) rfl (by decide) (by decide)

/-- C4 (amended): for a non-image asset that matches no hype phrase, is not
a too-short LONG_HEADLINE and contains no gatekeeping word, the diagnosis
is the similar-asset message for the first graveyard entry whose word-set
overlap with the asset is strictly greater than 0.5, and the generic
low-engagement fallback when no entry qualifies. -/
theorem c4_graveyard_first_match (asset : Asset) (graveyard : List GraveEntry)
    (h_img : asset.asset_type.getD "" ∉ image_field_types)
    (h_hype : KNOWN_FAILURE_PATTERNS.find?
       (fun pattern => py_in (py_lower pattern) (py_lower asset.asset_text)) = none)
    (h_len : ¬ ((py_split (py_lower asset.asset_text)).length ≤ 2 ∧
       asset.asset_type.getD "" = "LONG_HEADLINE"))
    (h_gate : gatekeeping_words.find?
       (fun word => py_in word (py_lower asset.asset_text)) = none) :
    diagnose_failure asset graveyard =
      match graveyard.find? (grave_similar (py_lower asset.asset_text)) with
      | some grave => Diagnosis.angle_similar grave.asset_text
      | none => Diagnosis.angle_low_engagement := by
  have himg : ¬ (asset.asset_type.getD "" = "MARKETING_IMAGE" ∨
      asset.asset_type.getD "" = "SQUARE_MARKETING_IMAGE" ∨
      asset.asset_type.getD "" = "PORTRAIT_MARKETING_IMAGE") := by
    simpa [image_field_types] using h_img
  unfold diagnose_failure
  rw [if_neg himg]
  dsimp only
  rw [h_hype, if_neg h_len, h_gate]

/-- C4 counterexample: the overlap of the asset with the graveyard entry is
exactly 0.5, every earlier branch of the chain passes, yet the diagnosis is
the generic fallback, not the similar-asset message: the code requires a
strictly greater overlap, refuting the at-least-0.5 reading. -/
theorem c4_counterexample :
    overlap_ratio "blue boat" "blue car" = 1/2 ∧
    KNOWN_FAILURE_PATTERNS.find?
      (fun pattern => py_in (py_lower pattern) (py_lower "blue boat")) = none ∧
    gatekeeping_words.find? (fun word => py_in word (py_lower "blue boat")) = none ∧
    diagnose_failure half_overlap_asset [half_overlap_grave] =
      Diagnosis.angle_low_engagement := by
  have hov : overlap_ratio "blue boat" "blue car" = 1/2 := by
    have h1 : ((word_set "blue boat").inter (word_set "blue car")).length = 1 := by decide
    have h2 : (word_set "blue boat").length = 2 := by decide
    unfold overlap_ratio
    rw [h1, h2]
    norm_num
  refine ⟨hov, by decide, by decide, ?_⟩
  have hs : grave_similar "blue boat" half_overlap_grave = false := by
    unfold grave_similar half_overlap_grave
    have e2 : py_lower "blue car" = "blue car" := by decide
    have w3 : decide (overlap_ratio "blue boat" "blue car" > 1/2) = false := by
      rw [hov]
      simp only [decide_eq_false_iff_not]
      norm_num
    simp only [e2, w3, Bool.and_false]
  unfold diagnose_failure
  rw [if_neg (by decide)]
  dsimp only
  rw [show KNOWN_FAILURE_PATTERNS.find? (fun pattern =>
      py_in (py_lower pattern) (py_lower half_overlap_asset.asset_text)) = none from by decide]
  rw [if_neg (by decide)]
  rw [show gatekeeping_words.find? (fun word =>
      py_in word (py_lower half_overlap_asset.asset_text)) = none from by decide]
  have e1 : py_lower half_overlap_asset.asset_text = "blue boat" := by decide
  simp [List.find?, e1, hs]

/-- Witness for C4: an asset whose overlap with the first graveyard entry
is 1 gets the similar-asset diagnosis naming that entry. -/
theorem c4_graveyard_first_match_witness :
    diagnose_failure alaska_asset [alaska_grave] =
      Diagnosis.angle_similar "fly rods for alaska trips" := by
  have h := c4_graveyard_first_match alaska_asset [alaska_grave]
    (by decide) (by decide) (by decide) (by decide)
  rw [h]
  have hov : overlap_ratio "fly rods for alaska" "fly rods for alaska trips" = 1 := by
    have h1 : ((word_set "fly rods for alaska").inter
        (word_set "fly rods for alaska trips")).length = 4 := by decide
    have h2 : (word_set "fly rods for alaska").length = 4 := by decide
    unfold overlap_ratio
    rw [h1, h2]
    norm_num
  have hs : grave_similar "fly rods for alaska"
      { asset_text := "fly rods for alaska trips" } = true := by
    unfold grave_similar
    have e2 : py_lower "fly rods for alaska trips" = "fly rods for alaska trips" := by decide
    have w1 : (word_set "fly rods for alaska" != []) = true := by decide
    have w2 : (word_set "fly rods for alaska trips" != []) = true := by decide
    have w3 : decide (overlap_ratio "fly rods for alaska"
        "fly rods for alaska trips" > 1/2) = true := by
      rw [hov]
      simp only [decide_eq_true_eq]
      norm_num
    simp only [e2, w1, w2, w3, Bool.and_self]
  have e1 : py_lower alaska_asset.asset_text = "fly rods for alaska" := by decide
  simp [List.find?, e1, hs, alaska_grave]

lemma runaway_no_collapse (bd : BudgetData) (a c : ℚ) :
    Alert.ctr_collapse a c ∉ budget_runaway_alerts bd := by
  unfold budget_runaway_alerts
  dsimp only
  split_ifs <;> simp

lemma ceiling_no_collapse (bd : BudgetData) (a c : ℚ) :
    Alert.ctr_collapse a c ∉ market_ceiling_alerts bd := by
  unfold market_ceiling_alerts
  dsimp only
  split_ifs <;> simp

lemma collapse_no_runaway (bd : BudgetData) (history : List (Option ℚ))
    (s t r tr : ℚ) :
    Alert.budget_runaway s t r tr ∉ ctr_collapse_alerts bd history := by
  unfold ctr_collapse_alerts
  dsimp only
  split_ifs <;> simp

lemma ceiling_no_runaway (bd : BudgetData) (s t r tr : ℚ) :
    Alert.budget_runaway s t r tr ∉ market_ceiling_alerts bd := by
  unfold market_ceiling_alerts
  dsimp only
  split_ifs <;> simp

/-- C5 (amended): check_emergency_conditions emits the CTR collapse alert
iff the history has at least 2 entries, the most recent 4 entries have at
least one present nonzero avg_ctr, the average over those present nonzero
values is positive, and the current avg_ctr is below half that average.
Zero or absent avg_ctr entries are filtered out of the average, not
averaged in. -/
theorem c5_ctr_collapse_iff (budget_data : BudgetData) (asset_data : List Asset)
    (history : List (Option ℚ)) :
    (∃ a c, Alert.ctr_collapse a c ∈
       check_emergency_conditions budget_data asset_data history) ↔
    (2 ≤ history.length ∧
     ((history.take 4).filter truthy_ctr).map (fun o => o.getD 0) ≠ [] ∧
     (((history.take 4).filter truthy_ctr).map (fun o => o.getD 0)).sum /
       ((((history.take 4).filter truthy_ctr).map (fun o => o.getD 0)).length : ℚ) > 0 ∧
     budget_data.avg_ctr.getD 0 <
       (((history.take 4).filter truthy_ctr).map (fun o => o.getD 0)).sum /
         ((((history.take 4).filter truthy_ctr).map (fun o => o.getD 0)).length : ℚ) * (1/2)) := by
  unfold check_emergency_conditions
  constructor
  · rintro ⟨a, c, hmem⟩
    rw [List.mem_append, List.mem_append] at hmem
    rcases hmem with (h | h) | h
    · unfold ctr_collapse_alerts at h
      dsimp only at h
      split_ifs at h with h1 h2 h3
      · exact ⟨h1, h2, h3.1, h3.2⟩
      all_goals simp at h
    · exact absurd h (runaway_no_collapse budget_data a c)
    · exact absurd h (ceiling_no_collapse budget_data a c)
  · rintro ⟨h1, h2, h3, h4⟩
    refine ⟨(((history.take 4).filter truthy_ctr).map (fun o => o.getD 0)).sum /
        ((((history.take 4).filter truthy_ctr).map (fun o => o.getD 0)).length : ℚ),
      budget_data.avg_ctr.getD 0, ?_⟩
    rw [List.mem_append, List.mem_append]
    left; left
    unfold ctr_collapse_alerts
    dsimp only
    rw [if_pos h1, if_pos h2, if_pos ⟨h3, h4⟩]
    exact List.mem_singleton.mpr rfl

/-- C5 counterexample: with history avg_ctr values 4 and 0 and current 1.5,
the spec-worded condition (average over the most recent 4 entries, zeros
included, here 2, with threshold 1) does not hold, yet the code emits the
alert because it averages only the nonzero entries (average 4, threshold 2). -/
theorem c5_counterexample :
    check_emergency_conditions collapse_bd [] [some 4, some 0] =
      [Alert.ctr_collapse 4 (3/2)] ∧
    ¬ ctr_collapse_condition_spec collapse_bd [some 4, some 0] := by
  constructor
  · norm_num [check_emergency_conditions, ctr_collapse_alerts, budget_runaway_alerts,
      market_ceiling_alerts, truthy_ctr, collapse_bd]
  · norm_num [ctr_collapse_condition_spec, spec_recent_avg, collapse_bd]

/-- Witness for C5: a history with averages 4 and 6 and current 2 emits the
collapse alert. -/
theorem c5_ctr_collapse_iff_witness :
    ∃ a c, Alert.ctr_collapse a c ∈
      check_emergency_conditions collapse_bd_w [] [some 4, some 6] := by
  refine (c5_ctr_collapse_iff collapse_bd_w [] [some 4, some 6]).mpr ?_
  refine ⟨by decide, by decide, ?_, ?_⟩ <;>
    norm_num [truthy_ctr, collapse_bd_w]

/-- C9: when daily_budget_target is absent or at most 0, the budget runaway
alert is never emitted, whatever the other fields and history are. -/
theorem c9_no_runaway_without_target (budget_data : BudgetData)
    (asset_data : List Asset) (history : List (Option ℚ))
    (h : budget_data.daily_budget_target.getD 0 ≤ 0) :
    ∀ s t r tr, Alert.budget_runaway s t r tr ∉
      check_emergency_conditions budget_data asset_data history := by
  intro s t r tr
  unfold check_emergency_conditions
  simp only [List.mem_append, not_or]
  refine ⟨⟨collapse_no_runaway budget_data history s t r tr, ?_⟩,
    ceiling_no_runaway budget_data s t r tr⟩
  unfold budget_runaway_alerts
  dsimp only
  rw [if_neg]
  · exact List.not_mem_nil _
  · rintro ⟨hpos, -, -⟩
    exact absurd hpos (not_lt.mpr h)

/-- Witness for C9 at concrete budget data with the target key absent. -/
theorem c9_no_runaway_without_target_witness :
    Alert.budget_runaway 500 0 50 200 ∉
      check_emergency_conditions runaway_bd [] [] :=
  c9_no_runaway_without_target runaway_bd [] [] (by decide) 500 0 50 200


lemma severity_deduction_critical : severity_deduction "CRITICAL" = 15 := by decide

lemma severity_deduction_warning : severity_deduction "WARNING" = 5 := by decide

lemma severity_deduction_other (s : String) (h1 : s ≠ "CRITICAL") (h2 : s ≠ "WARNING") :
    severity_deduction s = 0 := by
  unfold severity_deduction
  rw [if_neg h1, if_neg h2]
  split_ifs <;> rfl

lemma foldl_deduction (l : List String) (init : Int) :
    l.foldl (fun s f => s - severity_deduction f) init =
      init - 15 * (l.count "CRITICAL" : Int) - 5 * (l.count "WARNING" : Int) := by
  induction l generalizing init with
  | nil => simp
  | cons hd tl ih =>
    rw [List.foldl_cons, ih]
    by_cases h1 : hd = "CRITICAL"
    · subst h1
      rw [severity_deduction_critical]
      simp only [List.count_cons, beq_iff_eq]
      norm_num
      push_cast
      ring
    · by_cases h2 : hd = "WARNING"
      · subst h2
        rw [severity_deduction_warning]
        simp only [List.count_cons, beq_iff_eq]
        norm_num
        push_cast
        ring
      · rw [severity_deduction_other hd h1 h2]
        simp only [List.count_cons, beq_iff_eq]
        rw [if_neg h1, if_neg h2]
        push_cast
        ring

lemma calc_grade_eq (score : Int) : calc_grade score = grade_of_score_spec score := by
  unfold calc_grade GRADE_SCALE grade_of_score_spec
  by_cases h90 : score ≥ 90
  · rw [List.find?_cons_of_pos _ (by simpa using h90)]
    simp [h90]
  · rw [List.find?_cons_of_neg _ (by simpa using h90)]
    by_cases h75 : score ≥ 75
    · rw [List.find?_cons_of_pos _ (by simpa using h75)]
      simp [h90, h75]
    · rw [List.find?_cons_of_neg _ (by simpa using h75)]
      by_cases h60 : score ≥ 60
      · rw [List.find?_cons_of_pos _ (by simpa using h60)]
        simp [h90, h75, h60]
      · rw [List.find?_cons_of_neg _ (by simpa using h60)]
        by_cases h40 : score ≥ 40
        · rw [List.find?_cons_of_pos _ (by simpa using h40)]
          simp [h90, h75, h60, h40]
        · rw [List.find?_cons_of_neg _ (by simpa using h40)]
          by_cases h0 : score ≥ 0
          · rw [List.find?_cons_of_pos _ (by simpa using h0)]
            simp [h90, h75, h60, h40]
          · rw [List.find?_cons_of_neg _ (by simpa using h0)]
            simp [h90, h75, h60, h40]

/-- C6: the audit score is 100 minus 15 per CRITICAL finding and 5 per
WARNING finding, clamped at 0, the grade is the first matching descending
threshold, and a campaign with 0 active headlines, 1 description and 0 long
headlines yields a CRITICAL text_asset_minimums finding deducting exactly
15 points. -/
theorem c6_score_and_grade :
    (∀ findings : List String,
       (calculate_score findings).1 =
         max 0 (100 - 15 * (findings.count "CRITICAL" : Int) -
           5 * (findings.count "WARNING" : Int)) ∧
       (calculate_score findings).2 =
         grade_of_score_spec (calculate_score findings).1) ∧
    text_asset_minimums_severity 0 1 0 = "CRITICAL" ∧
    severity_deduction "CRITICAL" = 15 ∧
    calculate_score ["CRITICAL"] = (85, "B") := by
  refine ⟨fun findings => ⟨?_, ?_⟩, by decide, by decide, by decide⟩
  · unfold calculate_score
    dsimp only
    rw [foldl_deduction]
  · unfold calculate_score
    dsimp only
    rw [calc_grade_eq]

/-- C3 (amended): for fixed budget, spend and target, the recommended
budget is non-decreasing in current_roas whenever the current budget is at
least the 10.0 floor. Below the floor the pause and decrease branches
return the 10.0 floor, which exceeds the held budget, so the claim fails
there. -/
theorem c3_monotone_at_floor (B S r1 r2 T : ℚ) (season : String)
    (hB : 10 ≤ B) (hr : r1 ≤ r2) :
    (calculate_budget_recommendation B S r1 T season).recommended_budget ≤
      (calculate_budget_recommendation B S r2 T season).recommended_budget := by
  have hB0 : ¬ (B ≤ 0) := by linarith
  have hinc : B ≤ round2 (B + B * (20/100)) := by
    have h := le_round2 (B + B * (20/100))
    linarith
  have hdec : round2 (B - B * (20/100)) ≤ B := by
    have h := round2_le (B - B * (20/100))
    linarith
  have hdecm : max (round2 (B - B * (20/100))) 10 ≤ B := max_le hdec hB
  have h10 : (10:ℚ) ≤ max (round2 (B - B * (20/100))) 10 := le_max_right _ _
  unfold calculate_budget_recommendation
  rw [if_neg hB0, if_neg hB0]
  dsimp only
  by_cases hc : S / B * 100 < 80 ∧ B > 100
  · rw [if_pos hc, if_pos hc]
  · rw [if_neg hc, if_neg hc]
    set T2 := (if T ≤ 0 then (200:ℚ) else T) with hT2def
    have hT2 : (0:ℚ) < T2 := by
      rw [hT2def]
      split_ifs with h
      · norm_num
      · linarith [not_le.mp h]
    have hperf : r1 / T2 ≤ r2 / T2 := (div_le_div_iff_of_pos_right hT2).mpr hr
    split_ifs with g1 g2 g3 g4 g5 g6 <;> dsimp only <;>
      first
        | rfl
        | linarith

/-- C3 counterexample: at a budget of 5, below the 10.0 floor, raising
current_roas from 100 to 200 lowers the recommended budget from 10 (pause
floor) to 5 (hold), so the recommendation is not non-decreasing in ROAS
over all positive budgets. -/
theorem c3_counterexample :
    (0:ℚ) < 5 ∧ ((100:ℚ) ≤ 200) ∧
    (calculate_budget_recommendation 5 5 100 200 "deep_winter").recommended_budget = 10 ∧
    (calculate_budget_recommendation 5 5 200 200 "deep_winter").recommended_budget = 5 := by
  refine ⟨by norm_num, by norm_num, ?_, ?_⟩ <;> norm_num [calculate_budget_recommendation]

/-- Witness for C3 at budget 20, spend 20, target 200, roas 150 and 300. -/
theorem c3_monotone_at_floor_witness :
    (calculate_budget_recommendation 20 20 150 200 "peak_season").recommended_budget ≤
      (calculate_budget_recommendation 20 20 300 200 "peak_season").recommended_budget :=
  c3_monotone_at_floor 20 20 150 300 200 "peak_season" (by norm_num) (by norm_num)

/-- C8 (amended): the recommended budget is never negative, the decrease
and pause actions always return at least the 10.0 floor, and the result is
strictly positive whenever the current budget is nonpositive or at least
one cent; for budgets strictly between 0 and a quarter of a cent the
increase branch rounds to 0, so strict positivity over all inputs fails. -/
theorem c8_floor_invariant (B S r T : ℚ) (season : String) :
    0 ≤ (calculate_budget_recommendation B S r T season).recommended_budget ∧
    (((calculate_budget_recommendation B S r T season).action = "decrease" ∨
      (calculate_budget_recommendation B S r T season).action = "pause") →
      10 ≤ (calculate_budget_recommendation B S r T season).recommended_budget) ∧
    ((B ≤ 0 ∨ 1/100 ≤ B) →
      0 < (calculate_budget_recommendation B S r T season).recommended_budget) := by
  unfold calculate_budget_recommendation
  by_cases hB0 : B ≤ 0
  · rw [if_pos hB0]
    refine ⟨by norm_num, fun h => ?_, fun h => by norm_num⟩
    rcases h with h | h <;> simp at h
  · rw [if_neg hB0]
    have hBpos : 0 < B := not_le.mp hB0
    dsimp only
    by_cases hc : S / B * 100 < 80 ∧ B > 100
    · rw [if_pos hc]
      refine ⟨le_of_lt hBpos, fun h => ?_, fun h => hBpos⟩
      rcases h with h | h <;> simp at h
    · rw [if_neg hc]
      set T2 := (if T ≤ 0 then (200:ℚ) else T) with hT2def
      have hup : 0 ≤ round2 (B + B * (20/100)) :=
        round2_nonneg _ (by linarith)
      have h10m : (10:ℚ) ≤ max (round2 (B - B * (20/100))) 10 := le_max_right _ _
      split_ifs with g1 g2 g3 <;> dsimp only
      · refine ⟨hup, fun h => ?_, fun h => ?_⟩
        · rcases h with h | h <;> simp at h
        · rcases h with h | h
          · exact absurd h hB0
          · have hlow := le_round2 (B + B * (20/100))
            linarith
      · exact ⟨le_of_lt hBpos, fun h => by rcases h with h | h <;> simp at h,
          fun h => hBpos⟩
      · refine ⟨by linarith, fun h => h10m, fun h => by linarith⟩
      · refine ⟨by norm_num, fun h => by norm_num, fun h => by norm_num⟩

/-- C8 counterexample: a current budget of a tenth of a cent with strong
ROAS takes the increase branch and rounds the recommendation to exactly 0,
refuting strict positivity over all inputs. -/
theorem c8_counterexample :
    calculate_budget_recommendation (1/1000) (1/1000) 400 200 "peak_season" =
      { action := "increase", recommended_budget := 0,
        market_ceiling_detected := false } := by
  have h : round2 (3/2500) = 0 := by
    have h0 := round2_eq (3/2500) 0 (by norm_num) (by norm_num)
    simpa using h0
  norm_num [calculate_budget_recommendation, h]

/-- Witness for C8 at budget 1 cent: the recommendation stays positive. -/
theorem c8_floor_invariant_witness :
    0 < (calculate_budget_recommendation (1/100) (1/100) 400 200
      "peak_season").recommended_budget :=
  (c8_floor_invariant (1/100) (1/100) 400 200 "peak_season").2.2
    (Or.inr (by norm_num))

/-- Witness for C6: the score formula applied to one CRITICAL and one
WARNING finding. -/
theorem c6_score_and_grade_witness :
    (calculate_score ["CRITICAL", "WARNING"]).1 =
      max 0 (100 - 15 * ((["CRITICAL", "WARNING"] : List String).count "CRITICAL" : Int) -
        5 * ((["CRITICAL", "WARNING"] : List String).count "WARNING" : Int)) :=
  (c6_score_and_grade.1 ["CRITICAL", "WARNING"]).1
